import Mathlib

/-!
Verification of the review-panel logic of `ReviewsSection`
(src/src/components/ReviewsSection.tsx and the variant src/unnamed/part_000).

The component's non-visual logic is embedded shallowly:

* reviews are records; the `rating` field is a JS number that the source
  only ever compares and sums, modelled as `Int` (malformed / out-of-range
  values are representable and evaluated literally, as in the source);
* the externally owned selection `selectedArtist : string | null` is
  `Option String`; JS truthiness of a string (`if (selectedArtist && …)`)
  is the test that the string is non-empty;
* the filter state `reviewFilter` is a `String`, as in the source
  (`useState<string>('all')`);
* JS number arithmetic in the average computation (integer sums divided by
  a list length, then `Number.prototype.toFixed(1)`) is modelled exactly
  over the integers: `toFixed1 sum len` renders sum/len with one decimal
  digit, rounding half away from zero.  (IEEE-754 doubles can differ from
  exact rational rounding only when sum/len is an exact midpoint such as
  4.35, where the double representation perturbs the tie; no claim in this
  development depends on a midpoint.)
-/

/-- A review record, after `Review` of `@/types/salon` as used by the
component: only the fields the component reads are carried. -/
structure Review where
  id : String
  artistId : String
  rating : Int
  hasPhoto : Bool
  text : String
  service : String
  date : String
  userName : String
deriving Repr, DecidableEq

/-- JS truthiness of a string value: a string is truthy iff non-empty. -/
def strTruthy (s : String) : Bool := s != ""

/-- The provider-rejection test of the filter callback, the line
`if (selectedArtist && r.artistId !== selectedArtist) return false;`:
it fires iff `selectedArtist` is truthy (non-null and non-empty) and the
review's `artistId` differs from it. -/
def providerReject (selectedArtist : Option String) (r : Review) : Bool :=
  match selectedArtist with
  | none => false
  | some s => strTruthy s && r.artistId != s

/-- The filter callback of `reviews.filter((r) => { … })` in
`ReviewsSection`: provider rejection first, then the `reviewFilter`
if-chain (`'all'` / `'5'` / `'4'` / `'photos'`), falling through to
`true` for any other filter string. -/
def reviewPred (selectedArtist : Option String) (reviewFilter : String)
    (r : Review) : Bool :=
  if providerReject selectedArtist r then false
  else if reviewFilter == "all" then true
  else if reviewFilter == "5" then r.rating == 5
  else if reviewFilter == "4" then decide (r.rating ≥ 4)
  else if reviewFilter == "photos" then r.hasPhoto
  else true

/-- `const filteredReviews = reviews.filter((r) => { … });` -/
def filteredReviews (reviews : List Review) (selectedArtist : Option String)
    (reviewFilter : String) : List Review :=
  reviews.filter (reviewPred selectedArtist reviewFilter)

/-- `filteredReviews.reduce((sum, r) => sum + r.rating, 0)`:
JS `reduce` with initial value is a left fold. -/
def sumRatings (l : List Review) : Int :=
  l.foldl (fun sum r => sum + r.rating) 0

/-- `Number.prototype.toFixed(1)` applied to the quotient `sum / len`,
modelled over exact integers: the sign of the quotient, then the
magnitude rounded to the nearest tenth, half away from zero
(`(20*|sum| + len) / (2*len)` is `round(10*|sum|/len)` by floor
division), rendered as `⟨units⟩.⟨tenths⟩`. -/
def toFixed1 (sum : Int) (len : Nat) : String :=
  let a : Nat := sum.natAbs
  let n : Nat := (20 * a + len) / (2 * len)
  (if sum < 0 then "-" else "") ++ toString (n / 10) ++ "." ++ toString (n % 10)

/-- `const avgRating = filteredReviews.length > 0 ? (…reduce… /
filteredReviews.length).toFixed(1) : '0.0';` — the division is performed
only under the `length > 0` guard. -/
def avgRating (reviews : List Review) (selectedArtist : Option String)
    (reviewFilter : String) : String :=
  let fr := filteredReviews reviews selectedArtist reviewFilter
  if fr.length > 0 then toFixed1 (sumRatings fr) fr.length else "0.0"

/-- Convenience constructor for concrete test reviews; the fields the
filter and average never read are blank. -/
def mkReview (id artistId : String) (rating : Int) (hasPhoto : Bool) : Review :=
  ⟨id, artistId, rating, hasPhoto, "", "", "", ""⟩

/-- The geometry lookup key `const key = selectedArtist ?? '_all';` —
JS null-coalescing substitutes the sentinel only for `null`/`undefined`,
not for the (falsy) empty string. -/
def tabKey (selectedArtist : Option String) : String :=
  selectedArtist.getD "_all"

/-- The horizontal data of a `getBoundingClientRect()` result — the two
fields `updateTabPosition` reads.  Screen coordinates are abstracted to
integers; the measurement claims do not depend on their values. -/
structure Rect where
  left : Int
  width : Int
deriving Repr, DecidableEq

/-- The `tabStyle` state `{ left: number; width: number }`. -/
structure TabStyle where
  left : Int
  width : Int
deriving Repr, DecidableEq

/-- `updateTabPosition`: look up the button registered under
`selectedArtist ?? '_all'` and the row container; on `if (!btn || !row)
return;` the stored geometry is left unchanged, otherwise it becomes
`{ left: btnRect.left - rowRect.left, width: btnRect.width }`.
`buttonRefs` is the `Map` of registered buttons composed with their
measured rectangles; `row` is the row container's rectangle when mounted. -/
def updateTabPosition (buttonRefs : String → Option Rect) (row : Option Rect)
    (selectedArtist : Option String) (prev : Option TabStyle) : Option TabStyle :=
  let key := tabKey selectedArtist
  match buttonRefs key, row with
  | some btnRect, some rowRect =>
      some ⟨btnRect.left - rowRect.left, btnRect.width⟩
  | _, _ => prev

/-- `const isSelected = selectedArtist === artist.id;` — strict equality
between a `string | null` and a string. -/
def isSelected (selectedArtist : Option String) (artistId : String) : Bool :=
  match selectedArtist with
  | none => false
  | some s => s == artistId

/-- The argument an individual artist button passes to the selection
callback: `onClick={() => onSelectArtist(isSelected ? null : artist.id)}`. -/
def clickArtistArg (selectedArtist : Option String) (artistId : String) :
    Option String :=
  if isSelected selectedArtist artistId then none else some artistId

/-- The argument the "All" button passes to the selection callback:
`onClick={() => onSelectArtist(null)}`, independent of the current
selection. -/
def clickAllArg (_selectedArtist : Option String) : Option String := none

/-- The `setTimeout` delay of the jiggle effect in
src/src/components/ReviewsSection.tsx (milliseconds). -/
def jiggleDuration : Nat := 700

/-- The `setTimeout` delay of the jiggle effect in the variant
src/unnamed/part_000 (milliseconds). -/
def jiggleDurationAlt : Nat := 600

/-- The state relevant to the jiggle effect: the `isJiggling` boolean and
the fire time of the pending `setTimeout`, if one is live. -/
structure JiggleState where
  isJiggling : Bool
  pending : Option Nat
deriving Repr, DecidableEq

/-- The initial state: `useState(false)`, no timer scheduled. -/
def jiggleInit : JiggleState := ⟨false, none⟩

/-- The body of `useEffect(…, [selectedArtist])`, run at time `t` when the
selection changes: `setIsJiggling(true)` and a fresh timer for `t + D`;
the effect cleanup `clearTimeout(timer)` has already cancelled any timer
pending from the previous run, so the old `pending` is discarded. -/
def onSelectionChange (D : Nat) (_s : JiggleState) (t : Nat) : JiggleState :=
  ⟨true, some (t + D)⟩

/-- Timer delivery: if the pending timer's fire time has been reached by
time `t`, its callback `setIsJiggling(false)` runs and the timer is spent;
otherwise the state is unchanged. -/
def fireDue (s : JiggleState) (t : Nat) : JiggleState :=
  match s.pending with
  | some f => if f ≤ t then ⟨false, none⟩ else s
  | none => s

/-- The unmount cleanup of the jiggle effect: `clearTimeout(timer)`
cancels the pending timer; the flag itself is discarded with the state. -/
def unmountCleanup (s : JiggleState) : JiggleState := ⟨s.isJiggling, none⟩

/-- The jiggle state observed at time `t` for a time-sorted list of
selection-change times: every change not after `t` runs the effect (each
run cancelling the previous timer), and the surviving timer fires iff its
fire time has been reached.  Earlier timers that would have fired before a
later change only set the flag to `false` before that change set it back to
`true`, so the fold-then-fire form agrees with step-by-step delivery. -/
def jiggleStateAt (D : Nat) (changes : List Nat) (t : Nat) : JiggleState :=
  fireDue ((changes.filter (· ≤ t)).foldl (onSelectionChange D) jiggleInit) t

/-- The spec's provider match (§4.1): true when no provider is selected,
else true only when the review's owning-provider identifier equals the
selected identifier. -/
def specProviderMatch (selectedArtist : Option String) (r : Review) : Bool :=
  match selectedArtist with
  | none => true
  | some s => r.artistId == s

/-- The spec's quality match (§4.1), with the spec's mode names mapped to
the source's filter strings: `five-star` is `"5"`, `four-plus-star` is
`"4"`, `has-photo` is `"photos"`; an unrecognized mode admits everything
(the source's final fall-through). -/
def specQualityMatch (reviewFilter : String) (r : Review) : Bool :=
  if reviewFilter == "all" then true
  else if reviewFilter == "5" then r.rating == 5
  else if reviewFilter == "4" then decide (r.rating ≥ 4)
  else if reviewFilter == "photos" then r.hasPhoto
  else true

theorem sumRatings_foldl (l : List Review) (a : Int) :
    l.foldl (fun sum r => sum + r.rating) a
      = a + (l.map (fun r => r.rating)).sum := by
  induction l generalizing a with
  | nil => simp
  | cons x xs ih =>
      simp only [List.foldl_cons, List.map_cons, List.sum_cons, ih]
      ring

theorem sumRatings_eq_sum_map (l : List Review) :
    sumRatings l = (l.map (fun r => r.rating)).sum := by
  simpa [sumRatings] using sumRatings_foldl l 0

/-- C1: for every non-empty filtered subset, the displayed average rating
is the arithmetic mean of the `rating` fields of that subset rendered to
one decimal place, and in particular ratings [5,4,5] display "4.7" and
ratings [5,5] display "5.0". -/
theorem avgRating_is_rounded_mean :
    (∀ (reviews : List Review) (sel : Option String) (filt : String),
        filteredReviews reviews sel filt ≠ [] →
        avgRating reviews sel filt =
          toFixed1 (((filteredReviews reviews sel filt).map
              (fun r => r.rating)).sum)
            (filteredReviews reviews sel filt).length)
    ∧ avgRating [mkReview "a" "x" 5 false, mkReview "b" "x" 4 false,
        mkReview "c" "x" 5 false] none "all" = "4.7"
    ∧ avgRating [mkReview "a" "x" 5 false, mkReview "b" "x" 5 false]
        none "all" = "5.0" := by
  refine ⟨?_, by decide, by decide⟩
  intro reviews sel filt h
  have hl : 0 < (filteredReviews reviews sel filt).length :=
    List.length_pos.mpr h
  simp [avgRating, hl, sumRatings_eq_sum_map]

theorem avgRating_is_rounded_mean_witness :
    avgRating [mkReview "a" "x" 5 false, mkReview "b" "x" 4 false,
        mkReview "c" "x" 5 false] none "all" =
      toFixed1 (((filteredReviews [mkReview "a" "x" 5 false,
          mkReview "b" "x" 4 false, mkReview "c" "x" 5 false] none "all").map
            (fun r => r.rating)).sum)
        (filteredReviews [mkReview "a" "x" 5 false, mkReview "b" "x" 4 false,
          mkReview "c" "x" 5 false] none "all").length :=
  avgRating_is_rounded_mean.1 [mkReview "a" "x" 5 false,
    mkReview "b" "x" 4 false, mkReview "c" "x" 5 false] none "all" (by decide)

/-- C2: whenever the filtered subset is empty, the average is exactly the
string "0.0"; the division inside `toFixed1`'s argument is only reached
under the `length > 0` guard. -/
theorem avgRating_empty_is_zero (reviews : List Review)
    (sel : Option String) (filt : String)
    (h : filteredReviews reviews sel filt = []) :
    avgRating reviews sel filt = "0.0" := by
  simp [avgRating, h]

theorem avgRating_empty_is_zero_witness :
    avgRating [mkReview "a" "x" 3 false] (some "z") "all" = "0.0" :=
  avgRating_empty_is_zero [mkReview "a" "x" 3 false] (some "z") "all"
    (by decide)

/-- C3: for every selection other than the empty string, the filter
callback admits a review iff the spec's provider match and quality match
both pass (mode "5" iff rating = 5, mode "4" iff rating ≥ 4, mode
"photos" iff the photo flag; ratings are compared literally, whatever
their value). -/
theorem reviewPred_decomposes (sel : Option String) (filt : String)
    (r : Review) (h : sel ≠ some "") :
    reviewPred sel filt r
      = (specProviderMatch sel r && specQualityMatch filt r) := by
  cases sel with
  | none => rfl
  | some s =>
      have hs : s ≠ "" := fun e => h (by rw [e])
      have hst : strTruthy s = true := by
        simp [strTruthy, hs]
      have hq : reviewPred (some s) filt r
          = (!(providerReject (some s) r) && specQualityMatch filt r) := by
        unfold reviewPred specQualityMatch
        cases hpr : providerReject (some s) r <;> rfl
      have hp : (!(providerReject (some s) r)) = specProviderMatch (some s) r := by
        show (!(strTruthy s && !(r.artistId == s))) = (r.artistId == s)
        rw [hst]
        cases hab : r.artistId == s <;> rfl
      rw [hq, hp]

theorem reviewPred_decomposes_witness :
    reviewPred (some "x") "5" (mkReview "a" "x" 7 false)
      = (specProviderMatch (some "x") (mkReview "a" "x" 7 false) &&
          specQualityMatch "5" (mkReview "a" "x" 7 false)) :=
  reviewPred_decomposes (some "x") "5" (mkReview "a" "x" 7 false) (by decide)

/-- C4: an individual provider button requests `none` exactly when that
provider is already selected and `some id` otherwise, and the "All"
button always requests `none`. -/
theorem click_toggle_semantics (sel : Option String) (id : String) :
    clickArtistArg sel id = (if sel = some id then none else some id)
    ∧ clickAllArg sel = none := by
  refine ⟨?_, rfl⟩
  cases sel with
  | none => simp [clickArtistArg, isSelected]
  | some s =>
      by_cases h : s = id <;> simp [clickArtistArg, isSelected, h]

/-- C5: the filtered output is a sublist of the input collection — a
subset preserving the original relative order, without duplication or
fabrication. -/
theorem filtered_is_ordered_subset (reviews : List Review)
    (sel : Option String) (filt : String) :
    List.Sublist (filteredReviews reviews sel filt) reviews :=
  List.filter_sublist reviews

/-- C6: the emphasis flag turns true on every selection change and turns
false one timer window after the most recent change: for two changes
inside one window the flag is true exactly on the single interval from
the first change until one window after the second change; each change
installs a fresh timer whatever was pending, the unmount cleanup cancels
the pending timer, and both deployed window lengths lie in 600–700 ms. -/
theorem jiggle_debounce (D t1 t2 : Nat) (h1 : t1 ≤ t2) (h2 : t2 < t1 + D) :
    (∀ t, ((jiggleStateAt D [t1, t2] t).isJiggling = true
        ↔ (t1 ≤ t ∧ t < t2 + D)))
    ∧ (∀ (s : JiggleState) (c : Nat),
        (onSelectionChange D s c).isJiggling = true
        ∧ (onSelectionChange D s c).pending = some (c + D))
    ∧ (∀ s : JiggleState, (unmountCleanup s).pending = none)
    ∧ 600 ≤ jiggleDuration ∧ jiggleDuration ≤ 700
    ∧ 600 ≤ jiggleDurationAlt ∧ jiggleDurationAlt ≤ 700 := by
  refine ⟨?_, fun s c => ⟨rfl, rfl⟩, fun s => rfl,
    by decide, by decide, by decide, by decide⟩
  intro t
  by_cases ha : t1 ≤ t
  · by_cases hb : t2 ≤ t
    · by_cases hc : t2 + D ≤ t
      · simp [jiggleStateAt, List.filter, ha, hb, hc, onSelectionChange,
          fireDue, jiggleInit]
      · simp [jiggleStateAt, List.filter, ha, hb, hc, onSelectionChange,
          fireDue, jiggleInit]
        omega
    · have hc : ¬ (t1 + D ≤ t) := by omega
      simp [jiggleStateAt, List.filter, ha, hb, hc, onSelectionChange,
        fireDue, jiggleInit]
      omega
  · have hb : ¬ (t2 ≤ t) := by omega
    simp [jiggleStateAt, List.filter, ha, hb, onSelectionChange,
      fireDue, jiggleInit]

theorem jiggle_debounce_witness :
    (jiggleStateAt jiggleDuration [0, 300] 999).isJiggling = true :=
  ((jiggle_debounce jiggleDuration 0 300 (by decide) (by decide)).1 999).mpr
    (by decide)

/-- C7: when the button for the current selection key or the row
container cannot be found, the measurement leaves the stored geometry at
its previous value. -/
theorem tab_geometry_silent_noop (refs : String → Option Rect)
    (row : Option Rect) (sel : Option String) (prev : Option TabStyle)
    (h : refs (tabKey sel) = none ∨ row = none) :
    updateTabPosition refs row sel prev = prev := by
  rcases h with h | h
  · simp [updateTabPosition, h]
  · cases hr : refs (tabKey sel) with
    | none => simp [updateTabPosition, h, hr]
    | some b => simp [updateTabPosition, h, hr]

theorem tab_geometry_silent_noop_witness :
    updateTabPosition (fun _ => none) none none (some ⟨3, 4⟩) = some ⟨3, 4⟩ :=
  tab_geometry_silent_noop (fun _ => none) none none (some ⟨3, 4⟩)
    (Or.inl rfl)

/-- C8: the filtering-and-aggregation computation is deterministic — any
two results obtained from identical review collection, selection and
filter mode are equal (the embedding of the computation as a function
records that the source mutates no state while computing it). -/
theorem filter_aggregation_deterministic (reviews : List Review)
    (sel : Option String) (filt : String)
    (out1 out2 : List Review × String)
    (h1 : out1 = (filteredReviews reviews sel filt,
        avgRating reviews sel filt))
    (h2 : out2 = (filteredReviews reviews sel filt,
        avgRating reviews sel filt)) :
    out1 = out2 := h1.trans h2.symm

theorem filter_aggregation_deterministic_witness :
    (([mkReview "a" "x" 5 false], "5.0") : List Review × String)
      = ([mkReview "a" "x" 5 false], "5.0") :=
  filter_aggregation_deterministic [mkReview "a" "x" 5 false] none "all"
    ([mkReview "a" "x" 5 false], "5.0") ([mkReview "a" "x" 5 false], "5.0")
    (by decide) (by decide)

/-- C9: an empty-string selection is falsy, so the provider test admits
every review exactly as the no-selection state does; yet the geometry
key, produced by null-coalescing, is the empty string and not the
`_all` sentinel. -/
theorem empty_string_selection_mismatch :
    (∀ (filt : String) (r : Review),
        reviewPred (some "") filt r = reviewPred none filt r)
    ∧ tabKey (some "") = "" ∧ tabKey none = "_all"
    ∧ tabKey (some "") ≠ tabKey none :=
  ⟨fun _ _ => rfl, rfl, rfl, by decide⟩

/-- C10: any filter string other than "all", "5", "4" and "photos" falls
through to the final `return true`, so an unrecognized filter mode
behaves exactly like "all". -/
theorem unknown_filter_is_all (sel : Option String) (filt : String)
    (r : Review) (h1 : filt ≠ "all") (h2 : filt ≠ "5") (h3 : filt ≠ "4")
    (h4 : filt ≠ "photos") :
    reviewPred sel filt r = reviewPred sel "all" r
    ∧ (providerReject sel r = false → reviewPred sel filt r = true) := by
  have b1 : (filt == "all") = false := by simp [h1]
  have b2 : (filt == "5") = false := by simp [h2]
  have b3 : (filt == "4") = false := by simp [h3]
  have b4 : (filt == "photos") = false := by simp [h4]
  constructor
  · cases hpr : providerReject sel r <;>
      simp [reviewPred, hpr, b1, b2, b3, b4]
  · intro hpr
    simp [reviewPred, hpr, b1, b2, b3, b4]

theorem unknown_filter_is_all_witness :
    reviewPred (some "x") "recent" (mkReview "a" "y" 1 false)
      = reviewPred (some "x") "all" (mkReview "a" "y" 1 false) :=
  (unknown_filter_is_all (some "x") "recent" (mkReview "a" "y" 1 false)
    (by decide) (by decide) (by decide) (by decide)).1
